import Mathlib

/-!
Shallow embedding of chupaESRI.py (ESRI JSON to PostgreSQL importer).
Python dictionaries with optional keys are modelled as structures with
Option fields; Python exceptions as an explicit error type; machine
integers as Int/Nat. Feature/ring coordinates are modelled as integers
(the claims under study do not depend on float formatting).
-/

/-- A JSON-ish scalar attribute value carried through unchanged. -/
inductive PyVal where
  | pnull
  | pint (i : Int)
  | pstr (s : String)
  deriving Repr, DecidableEq

/-- One entry of the srcjson fields list: keys name/type/length/alias may be absent. -/
structure SrcField where
  name? : Option String
  ftype? : Option String
  length? : Option Nat
  alias? : Option String
  deriving Repr, DecidableEq

/-- One converted field dictionary as built by convert_fields. -/
structure OutField where
  name : String
  ftype? : Option String
  length? : Option Nat
  alias? : Option String
  deriving Repr, DecidableEq

/-- A geometry value of a feature: JSON null, a dict with a rings key, or a
point dict with x/y. -/
inductive GeomVal where
  | gnull
  | rings (rs : List (List (Int × Int)))
  | pt (x y : Int)
  deriving Repr, DecidableEq

/-- The spatialReference dict: wkid / latestWkid keys may be absent. -/
structure SpatialRef where
  wkid? : Option Int
  latestWkid? : Option Int
  deriving Repr, DecidableEq

/-- One entry of the srcjson features list; geometry? = none models an absent key. -/
structure Feature where
  attributes : List (String × PyVal)
  geometry? : Option GeomVal
  deriving Repr, DecidableEq

/-- The parsed query response document (assumed non-empty, as a falsy json
raises ValueError in the constructor before any translation runs). -/
structure Doc where
  geometryType? : Option String
  spatialReference? : Option SpatialRef
  fields : List SrcField
  features : List Feature
  deriving Repr, DecidableEq

/-- Python exceptions that the translated code can raise. -/
inductive Err where
  | typeError
  | keyError
  | indexError
  | queryException
  deriving Repr, DecidableEq

/-- Python ", ".join-style concatenation (str.join semantics). -/
def pyJoin (sep : String) : List String → String
  | [] => ""
  | [x] => x
  | x :: y :: rest => x ++ sep ++ pyJoin sep (y :: rest)

/-- str.split on a single-character separator, accumulator-based. -/
def pySplitAux (sep : Char) (acc : List Char) : List Char → List (List Char)
  | [] => [acc.reverse]
  | c :: rest =>
    if c = sep then acc.reverse :: pySplitAux sep [] rest
    else pySplitAux sep (c :: acc) rest

/-- Python name.split(sep) for a one-character separator. -/
def pySplit (s : String) (sep : Char) : List String :=
  (pySplitAux sep [] s.data).map String.mk

/-- str.replace on char lists: leftmost non-overlapping occurrences of pat
are replaced by rep; fuel bounds the number of steps by the input length. -/
def pyReplaceFuel (pat rep : List Char) : Nat → List Char → List Char
  | 0, s => s
  | _ + 1, [] => []
  | n + 1, c :: rest =>
    if pat.isPrefixOf (c :: rest) && !pat.isEmpty then
      rep ++ pyReplaceFuel pat rep n (List.drop (pat.length - 1) rest)
    else
      c :: pyReplaceFuel pat rep n rest

/-- Python s.replace(pat, rep) for the nonempty patterns used in the source. -/
def pyReplace (s pat rep : String) : String :=
  String.mk (pyReplaceFuel pat.data rep.data s.data.length s.data)

/-- re.sub of a digit followed by a comma with just the digit, scanning
left to right over non-overlapping matches. -/
def reSubDigitComma : List Char → List Char
  | [] => []
  | [c] => [c]
  | c1 :: c2 :: rest =>
    if c1.isDigit && c2 == ',' then c1 :: reSubDigitComma rest
    else c1 :: reSubDigitComma (c2 :: rest)

/-- The _clean_field_names helper of the source: keep the trailing
dot-separated segment and strip parenthesis characters (only when a dot
is present). -/
def clean_field_names (name : String) : String :=
  if name.data.contains '.' then
    pyReplace (pyReplace ((pySplit name '.').getLastD "") "(" "") ")" ""
  else name

/-- The _esri_types lookup: esri geometry type to postgis geometry type;
none models the KeyError raised on an unmapped tag. -/
def esri_types (t : String) : Option String :=
  if t = "esriGeometryNull" then some "GEOMETRY"
  else if t = "esriGeometryPoint" then some "POINT"
  else if t = "esriGeometryMultipoint" then some "MULTIPOINT"
  else if t = "esriGeometryLine" then some "LINESTRING"
  else if t = "esriGeometryCircularArc" then some "CURVE"
  else if t = "esriGeometryEllipticArc" then some "CURVE"
  else if t = "esriGeometryBezier3Curve" then some "CURVE"
  else if t = "esriGeometryPath" then some "CURVE"
  else if t = "esriGeometryPolyline" then some "MULTILINESTRING"
  else if t = "esriGeometryRing" then some "POLYGON"
  else if t = "esriGeometryPolygon" then some "MULTIPOLYGON"
  else if t = "esriGeometryEnvelope" then some "POLYGON"
  else if t = "esriGeometryAny" then some "GEOMCOLLECTION"
  else if t = "esriGeometryMultiPatch" then some "MULTISURFACE"
  else if t = "esriGeometryTriangleStrip" then some "MULTISURFACE"
  else if t = "esriGeometryTriangleFan" then some "MULTISURFACE"
  else if t = "esriGeometryTriangles" then some "MULTISURFACE"
  else none

/-- The _field_translation lookup: esri field type to Postgresql type;
none models the KeyError raised on an unmapped tag. -/
def field_translation (t : String) : Option String :=
  if t = "esriFieldTypeSmallInteger" then some "integer"
  else if t = "esriFieldTypeInteger" then some "integer"
  else if t = "esriFieldTypeSingle" then some "double precision"
  else if t = "esriFieldTypeDouble" then some "double precision"
  else if t = "esriFieldTypeString" then some "character varying"
  else if t = "esriFieldTypeDate" then some "bigint"
  else if t = "esriFieldTypeOID" then some "serial"
  else if t = "esriFieldTypeBlob" then some "bytea"
  else if t = "esriFieldTypeGUID" then some "uuid"
  else if t = "esriFieldTypeGlobalID" then some "uuid"
  else if t = "esriFieldTypeXML" then some "xml"
  else none

/-- The tuple of translated types whose length attribute is popped in
convert_fields (verbatim from the source, including entries such as
date and smallint that the translation table never produces). -/
def drop_len_types : List String := ["date", "uuid", "integer", "bigint", "smallint"]

/-- The length value copied into the output dict: padded by the fudge
constant 5 exactly when the source type tag is the string tag. -/
def fudged_length (f : SrcField) : Option Nat :=
  match f.length? with
  | none => none
  | some l =>
    match f.ftype? with
    | some t => if t = "esriFieldTypeString" then some (l + 5) else some l
    | none => some l

/-- One iteration of the convert_fields loop body for a single source
field, given the output list accumulated so far. -/
def convert_one (fo : List OutField) (f : SrcField) : Option (List OutField) :=
  match f.name? with
  | none => some fo
  | some rawName =>
    if fo.any (fun x => x.name == clean_field_names rawName) then some fo
    else
      match f.ftype? with
      | none =>
        if clean_field_names rawName = "" then some fo
        else some (fo ++ [⟨clean_field_names rawName, none, fudged_length f, f.alias?⟩])
      | some t =>
        match field_translation t with
        | none => none
        | some pt =>
          if clean_field_names rawName = "" then some fo
          else some (fo ++ [⟨clean_field_names rawName, some pt,
            if pt ∈ drop_len_types then none else fudged_length f, f.alias?⟩])

/-- The convert_fields loop over all source fields. -/
def convert_fields_loop : List SrcField → List OutField → Option (List OutField)
  | [], fo => some fo
  | f :: rest, fo =>
    match convert_one fo f with
    | none => none
    | some fo2 => convert_fields_loop rest fo2

/-- The synthetic geometry column dict appended by convert_fields. -/
def shape_col (gt : String) : OutField := ⟨"shape", some gt, none, none⟩

/-- convert_fields: translate the field list and, when a geometry type
was recognized, append the synthetic shape column last. -/
def convert_fields (fields : List SrcField) (geomType : Option String) : Option (List OutField) :=
  match convert_fields_loop fields [] with
  | none => none
  | some fo =>
    match geomType with
    | none => some fo
    | some gt => some (fo ++ [shape_col gt])

/-- The spatial-reference computation of the constructor from the document:
latestWkid preferred over wkid, -1 when absent, 102100 remapped to 3857. -/
def sr_from_doc (doc : Doc) : Int :=
  match doc.spatialReference? with
  | none => -1
  | some sref =>
    let s0 :=
      match sref.latestWkid? with
      | some l => l
      | none =>
        match sref.wkid? with
        | some w => w
        | none => -1
    if s0 = 102100 then 3857 else s0

/-- The srid choice of the constructor: a truthy out_srid wins (0 is falsy
in Python, so srid 0 falls back to the document), otherwise the document. -/
def computed_sr (doc : Doc) (out_srid : Option Int) : Int :=
  match out_srid with
  | some s => if s = 0 then sr_from_doc doc else s
  | none => sr_from_doc doc

/-- The geometry-type computation of the constructor; the outer none models
the KeyError on an unmapped esri geometry tag. -/
def computed_geomType (doc : Doc) : Option (Option String) :=
  match doc.geometryType? with
  | none => some none
  | some g =>
    match esri_types g with
    | none => none
    | some t => some (some t)

/-- The state held by an EsriJSON2Pg instance after __init__. -/
structure EsriJSON2Pg where
  srcjson : Doc
  out_table : String
  geomType : Option String
  sr : Int
  fields : List OutField
  deriving Repr, DecidableEq

/-- EsriJSON2Pg.__init__: none models a constructor exception. -/
def mk_jp (doc : Doc) (table : String) (out_srid : Option Int) : Option EsriJSON2Pg :=
  match computed_geomType doc with
  | none => none
  | some gt =>
    match convert_fields doc.fields gt with
    | none => none
    | some fs => some ⟨doc, table, gt, computed_sr doc out_srid, fs⟩

/-- Python str of a coordinate pair list [x, y]. -/
def pyStrPt (p : Int × Int) : String :=
  "[" ++ toString p.1 ++ ", " ++ toString p.2 ++ "]"

/-- Python str of one ring (a list of coordinate pairs). -/
def pyStrRing (r : List (Int × Int)) : String :=
  "[" ++ pyJoin ", " (r.map pyStrPt) ++ "]"

/-- Python str of the rings list. -/
def pyStrRings (rs : List (List (Int × Int))) : String :=
  "[" ++ pyJoin ", " (rs.map pyStrRing) ++ "]"

/-- The ring-based wkt assembly of change_geometry: brackets to parens,
the digit-comma re.sub, the "), (" join, and the \x01 strip. -/
def ringsWkt (sr : Int) (g : String) (rs : List (List (Int × Int))) : String :=
  let w0 := "SRID=" ++ toString sr ++ ";" ++ g ++
    pyReplace (pyReplace (pyStrRings rs) "[" "(") "]" ")"
  let w1 := String.mk (reSubDigitComma w0.data)
  pyReplace (pyReplace w1 "), (" ",") (String.mk [Char.ofNat 1]) ""

/-- The body of change_geometry applied to one geometry value; gnull
raises TypeError because Python asks whether the key rings is in None. -/
def change_geometry_val (sr : Int) (gt : Option String) : GeomVal → Except Err (Option String)
  | GeomVal.gnull => Except.error Err.typeError
  | GeomVal.rings rs =>
    if rs = [] then Except.ok none
    else if rs.any (fun r => decide (r.length ≤ 3)) then Except.ok none
    else
      match gt with
      | some g =>
        if g = "POLYGON" ∨ g = "MULTIPOLYGON" then Except.ok (some (ringsWkt sr g rs))
        else Except.ok none
      | none => Except.ok none
  | GeomVal.pt x y =>
    if gt = some "POINT" then
      Except.ok (some ("SRID=" ++ toString sr ++ ";POINT(" ++ toString x ++ " " ++ toString y ++ ")"))
    else Except.ok none

/-- change_geometry(indx=i) applied to one feature: an absent geometry
key raises KeyError, otherwise the geometry value is encoded. -/
def feature_shape (jp : EsriJSON2Pg) (feat : Feature) : Except Err (Option String) :=
  match feat.geometry? with
  | none => Except.error Err.keyError
  | some g => change_geometry_val jp.sr jp.geomType g

/-- The attribute-dict build: data[_clean_field_names(k)] = v. -/
def clean_attrs (attrs : List (String × PyVal)) : List (String × PyVal) :=
  attrs.map (fun kv => (clean_field_names kv.1, kv.2))

/-- The INSERT statement template built per yielded record. -/
def insert_sql (jp : EsriJSON2Pg) : String :=
  "INSERT INTO " ++ jp.out_table ++ " (" ++
    pyJoin "," (jp.fields.map (fun x => x.name)) ++ ") VALUES (" ++
    pyJoin "," (jp.fields.map (fun x => "%(" ++ x.name ++ ")s")) ++ ");"

/-- One yielded dict of insert_statements: its sql text and its data dict
(cleaned attributes plus the shape value that overwrites any attribute
cleaning to the key shape). -/
structure InsertRow where
  sql : String
  data_attrs : List (String × PyVal)
  shape : String
  deriving Repr, DecidableEq

/-- Build one yielded record; upsert leaves the sql text empty. -/
def mk_row (jp : EsriJSON2Pg) (upsert : Bool) (feat : Feature) (shp : String) : InsertRow :=
  ⟨if upsert then "" else insert_sql jp, clean_attrs feat.attributes, shp⟩

/-- The insert_statements generator over the remaining features: a record
is yielded only when its shape is truthy (non-None and nonempty). -/
def insert_statements_go (jp : EsriJSON2Pg) (upsert : Bool) : List Feature → Except Err (List InsertRow)
  | [] => Except.ok []
  | feat :: rest =>
    match feature_shape jp feat with
    | Except.error e => Except.error e
    | Except.ok shp =>
      match insert_statements_go jp upsert rest with
      | Except.error e => Except.error e
      | Except.ok rows =>
        match shp with
        | none => Except.ok rows
        | some s => if s = "" then Except.ok rows else Except.ok (mk_row jp upsert feat s :: rows)

/-- EsriJSON2Pg.insert_statements over the features of the document. -/
def insert_statements (jp : EsriJSON2Pg) (upsert : Bool) : Except Err (List InsertRow) :=
  insert_statements_go jp upsert jp.srcjson.features

/-- A single-quote character for SQL literals. -/
def apos : String := String.mk [Char.ofNat 39]

/-- Render one column of the CREATE TABLE body; none models the KeyError
when the field dict has no type key. -/
def render_col (f : OutField) : Option String :=
  match f.ftype? with
  | none => none
  | some t =>
    let fd := "\n" ++ f.name ++ " \t" ++ t
    some (match f.length? with
      | some l => fd ++ " (" ++ toString l ++ ")"
      | none => fd)

/-- str(self.geomType) as interpolated into AddGeometryColumn. -/
def geomTypeStr (jp : EsriJSON2Pg) : String :=
  match jp.geomType with
  | some g => g
  | none => "None"

/-- EsriJSON2Pg.create_table: the CREATE TABLE text, the geometry-column
registration when both geometryType and spatialReference keys are in the
source document, and one COMMENT per field whose alias differs. -/
def create_table (jp : EsriJSON2Pg) : Option String :=
  let fl := jp.fields.filter (fun f =>
    !(f.name.data.contains '.') && !(f.name == "geometry") && !(f.name == "shape"))
  match fl.mapM render_col with
  | none => none
  | some cols =>
    let sql1 := "CREATE TABLE " ++ jp.out_table ++ " (" ++ pyJoin "," cols ++ "\n);\n"
    let sql2 :=
      match jp.srcjson.geometryType?, jp.srcjson.spatialReference? with
      | some _, some _ =>
        if jp.out_table.data.contains '.' then
          sql1 ++ "SELECT AddGeometryColumn(" ++ apos ++ (pySplit jp.out_table '.').headD "" ++
            apos ++ ", " ++ apos ++ (pySplit jp.out_table '.').getD 1 "" ++ apos ++ ", " ++
            apos ++ "shape" ++ apos ++ ", " ++ toString jp.sr ++ ", " ++ apos ++
            geomTypeStr jp ++ apos ++ ", 2, True);"
        else
          sql1 ++ "SELECT AddGeometryColumn(" ++ apos ++ jp.out_table ++ apos ++ ", " ++
            apos ++ "shape" ++ apos ++ ", " ++ toString jp.sr ++ ", " ++ apos ++
            geomTypeStr jp ++ apos ++ ", 2, True);"
      | _, _ => sql1
    some (jp.fields.foldl (fun acc f =>
      match f.alias? with
      | some a =>
        if f.name = a then acc
        else acc ++ "\nCOMMENT ON COLUMN " ++ jp.out_table ++ "." ++ f.name ++
          " IS " ++ apos ++ a ++ apos ++ ";"
      | none => acc) sql2)

/-- Python range with a positive step, via an element count. -/
def pyRangeAux (step : Int) : Nat → Int → List Int
  | 0, _ => []
  | n + 1, a => a :: pyRangeAux step n (a + step)

/-- Python range(a, b, step) for positive step. -/
def pyRange (a b step : Int) : List Int :=
  if 0 < step then pyRangeAux step ((b - a + step - 1) / step).toNat a else []

/-- The chunk plan of _check_oid_range built from the statistics bounds:
[(f, f + 999) for f in range(oidmin, oidmax, 1000)]. -/
def check_oid_range (oidmin oidmax : Int) : List (Int × Int) :=
  (pyRange oidmin oidmax 1000).map (fun f => (f, f + 999))

/-- The external collaborators of the main loop: the per-chunk fetch and the
select-1-between probe (whose SQL errors are swallowed by the source). -/
structure RunEnv where
  fetch : Int → Int → Doc
  probe : Int → Int → Bool
  table : String
  out_srid : Option Int

/-- One executed database statement of the import loop. -/
inductive DbAction where
  | createTable (sql : String)
  | insertRow (row : InsertRow)
  | commit
  deriving Repr, DecidableEq

/-- Whether an action is the table-creation statement. -/
def isCreateTable : DbAction → Bool
  | DbAction.createTable _ => true
  | _ => false

/-- One iteration of the chunk loop of main. The db_max comparison sits
outside the try block, so a None db_max raises an uncaught TypeError;
exceptions inside the fetch/create/insert try block re-raise as
QueryException. -/
def run_chunk (env : RunEnv) (tableExists : Bool) (dbMax : Option Int) (l : Int × Int) :
    Except Err (List DbAction) :=
  match dbMax with
  | none => Except.error Err.typeError
  | some m =>
    if l.2 ≤ m then Except.ok []
    else if tableExists && env.probe l.1 l.2 then Except.ok []
    else
      match mk_jp (env.fetch l.1 l.2) env.table env.out_srid with
      | none => Except.error Err.queryException
      | some jp =>
        if tableExists then
          match insert_statements jp false with
          | Except.error _ => Except.error Err.queryException
          | Except.ok rows =>
            Except.ok (rows.map DbAction.insertRow ++ [DbAction.commit])
        else
          match create_table jp with
          | none => Except.error Err.queryException
          | some sql =>
            match insert_statements jp false with
            | Except.error _ => Except.error Err.queryException
            | Except.ok rows =>
              Except.ok (DbAction.createTable sql :: rows.map DbAction.insertRow ++ [DbAction.commit])

/-- The loop of main over the planned chunks: table_exists and db_max are
fixed before the loop and never updated inside it, exactly as in the
source. -/
def run_loop (env : RunEnv) (tableExists : Bool) (dbMax : Option Int) :
    List (Int × Int) → Except Err (List DbAction)
  | [] => Except.ok []
  | l :: rest =>
    match run_chunk env tableExists dbMax l with
    | Except.error e => Except.error e
    | Except.ok acts =>
      match run_loop env tableExists dbMax rest with
      | Except.error e => Except.error e
      | Except.ok acts2 => Except.ok (acts ++ acts2)

/-- main after the existence check: db_max starts at -1 and is replaced by
the max(objectid) probe result (None on an empty table) only when the
table exists. -/
def run_main (env : RunEnv) (tableExists : Bool) (maxProbe : Option Int)
    (oids : List (Int × Int)) : Except Err (List DbAction) :=
  run_loop env tableExists (if tableExists then maxProbe else some (-1)) oids

/-- An empty-response document used to exercise the loop. -/
def docEmpty : Doc := ⟨none, none, [], []⟩

/-- A loop environment whose fetches return the empty document and whose
between-probe finds no rows. -/
def envA : RunEnv := ⟨fun _ _ => docEmpty, fun _ _ => false, "gisdata.tbl", none⟩

/-- A point-layer document whose single feature carries a JSON null
geometry. -/
def docN : Doc :=
  ⟨some "esriGeometryPoint", some ⟨some 4326, none⟩,
    [⟨some "OBJECTID", some "esriFieldTypeOID", none, some "OBJECTID"⟩],
    [⟨[("OBJECTID", PyVal.pint 1)], some GeomVal.gnull⟩]⟩

/-- A point-layer document with one valid point feature. -/
def doc1 : Doc :=
  ⟨some "esriGeometryPoint", some ⟨some 4326, none⟩,
    [⟨some "OBJECTID", some "esriFieldTypeOID", none, none⟩],
    [⟨[("OBJECTID", PyVal.pint 1)], some (GeomVal.pt 10 20)⟩]⟩

/-- The translator state built from doc1 (as mk_jp doc1 "gisdata.tbl" none
produces it). -/
def jp1 : EsriJSON2Pg :=
  ⟨doc1, "gisdata.tbl", some "POINT", 4326,
    [⟨"OBJECTID", some "serial", none, none⟩, ⟨"shape", some "POINT", none, none⟩]⟩

/-- Two source fields that both clean to the name oid. -/
def fs0 : List SrcField :=
  [⟨some "gdb.tbl.oid", some "esriFieldTypeOID", none, none⟩,
   ⟨some "oid", some "esriFieldTypeInteger", none, none⟩]

/-- Single-step characterization of convert_one on a fresh, nonempty,
typed field whose tag translates to pt. -/
theorem convert_one_typed (fo : List OutField) (nm : String) (al : Option String) (L : Nat)
    (tag pt : String)
    (h1 : fo.any (fun x => x.name == clean_field_names nm) = false)
    (h2 : ¬ clean_field_names nm = "")
    (htr : field_translation tag = some pt) :
    convert_one fo ⟨some nm, some tag, some L, al⟩ =
      some (fo ++ [⟨clean_field_names nm, some pt,
        if pt ∈ drop_len_types then none
        else if tag = "esriFieldTypeString" then some (L + 5) else some L, al⟩]) := by
  simp [convert_one, h1, h2, htr, fudged_length]

/-- C1: the range planner fails to cover the maximum id when the span is a
multiple of the chunk size: the documented example holds, but for min=0,
max=1000 the plan is [(0,999)] and no planned range contains id 1000, and
for min=max the plan is empty. -/
theorem c1_range_plan_misses_max :
    check_oid_range 0 2500 = [(0,999), (1000,1999), (2000,2999)] ∧
    check_oid_range 0 1000 = [(0,999)] ∧
    (check_oid_range 0 1000).countP (fun p => decide (p.1 ≤ 1000 ∧ 1000 ≤ p.2)) = 0 ∧
    check_oid_range 5 5 = [] :=
  ⟨by decide, by decide, by decide, by decide⟩

/-- C2: on a run with tableExists false at start and two processed chunks
the table-creation statement is executed twice, not once, because
table_exists is never updated inside the loop; when the table exists at
start it is executed zero times. -/
theorem c2_create_table_repeated :
    (run_main envA false none [(0,999), (1000,1999)]).map
      (fun tr => tr.countP isCreateTable) = Except.ok 2 ∧
    (run_main envA true (some (-1)) [(0,999), (1000,1999)]).map
      (fun tr => tr.countP isCreateTable) = Except.ok 0 :=
  ⟨rfl, rfl⟩

/-- C4: when the destination table exists but is empty the max-id probe
returns NULL and the loop comparison raises TypeError instead of
proceeding; with a present max id at least the chunk high bound the chunk
is skipped. -/
theorem c4_empty_table_type_error :
    run_main envA true none [(0,999)] = Except.error Err.typeError ∧
    run_main envA true (some 2000) [(0,999)] = Except.ok [] :=
  ⟨rfl, rfl⟩

/-- C8: a feature whose geometry is JSON null makes insert_statements
raise TypeError (Python asks whether the key rings is in None) instead of skipping
the record. -/
theorem c8_null_geometry_error :
    (mk_jp docN "gisdata.tbl" none).map (fun jp => insert_statements jp false) =
      some (Except.error Err.typeError) :=
  rfl

/-- C3 counterexample: a string field of length 251 is padded to 256, yet
the output keeps type character varying with length 256 present; no
switch to an unbounded text type happens at the 256 threshold. -/
theorem c3_counterexample :
    convert_fields [⟨some "descr", some "esriFieldTypeString", some 251, none⟩] none =
      some [⟨"descr", some "character varying", some 256, none⟩] ∧
    251 + 5 ≥ 256 :=
  ⟨rfl, by decide⟩

/-- C3 (amended): a string-typed source field of length L always yields
destination type character varying with length L+5, for every L. -/
theorem c3_string_padding (fo : List OutField) (nm : String) (al : Option String) (L : Nat)
    (h1 : fo.any (fun x => x.name == clean_field_names nm) = false)
    (h2 : ¬ clean_field_names nm = "") :
    convert_one fo ⟨some nm, some "esriFieldTypeString", some L, al⟩ =
      some (fo ++ [⟨clean_field_names nm, some "character varying", some (L + 5), al⟩]) := by
  have h := convert_one_typed fo nm al L "esriFieldTypeString" "character varying" h1 h2 rfl
  rw [h, if_neg (show ¬ ("character varying" ∈ drop_len_types) by decide),
    if_pos (show "esriFieldTypeString" = "esriFieldTypeString" from rfl)]

/-- Witness for c3_string_padding at a concrete field. -/
theorem c3_string_padding_witness :
    convert_one [] ⟨some "descr", some "esriFieldTypeString", some 251, none⟩ =
      some [⟨"descr", some "character varying", some 256, none⟩] := by
  have h := c3_string_padding [] "descr" none 251 rfl (by decide)
  exact h

/-- C9 counterexample: an identifier/object-id field with a length keeps
that length in the output (destination type serial is not in the
length-drop tuple). -/
theorem c9_counterexample :
    convert_fields [⟨some "objectid", some "esriFieldTypeOID", some 4, none⟩] none =
      some [⟨"objectid", some "serial", some 4, none⟩] :=
  rfl

/-- C9 (amended): the length attribute is dropped for tags translating to
integer, bigint or uuid, but an identifier/object-id field (serial)
keeps its length. -/
theorem c9_length_drop (fo : List OutField) (nm : String) (al : Option String) (L : Nat)
    (tag pt : String)
    (h1 : fo.any (fun x => x.name == clean_field_names nm) = false)
    (h2 : ¬ clean_field_names nm = "")
    (h3 : (tag, pt) ∈ ([("esriFieldTypeSmallInteger", "integer"),
      ("esriFieldTypeInteger", "integer"), ("esriFieldTypeDate", "bigint"),
      ("esriFieldTypeGUID", "uuid"), ("esriFieldTypeGlobalID", "uuid")] :
        List (String × String))) :
    convert_one fo ⟨some nm, some tag, some L, al⟩ =
      some (fo ++ [⟨clean_field_names nm, some pt, none, al⟩]) ∧
    convert_one fo ⟨some nm, some "esriFieldTypeOID", some L, al⟩ =
      some (fo ++ [⟨clean_field_names nm, some "serial", some L, al⟩]) := by
  constructor
  · have h3' : (tag = "esriFieldTypeSmallInteger" ∧ pt = "integer") ∨
      (tag = "esriFieldTypeInteger" ∧ pt = "integer") ∨
      (tag = "esriFieldTypeDate" ∧ pt = "bigint") ∨
      (tag = "esriFieldTypeGUID" ∧ pt = "uuid") ∨
      (tag = "esriFieldTypeGlobalID" ∧ pt = "uuid") := by
      simpa [Prod.ext_iff] using h3
    rcases h3' with ⟨rfl, rfl⟩ | ⟨rfl, rfl⟩ | ⟨rfl, rfl⟩ | ⟨rfl, rfl⟩ | ⟨rfl, rfl⟩
    · rw [convert_one_typed fo nm al L "esriFieldTypeSmallInteger" "integer" h1 h2 rfl,
        if_pos (show ("integer" : String) ∈ drop_len_types by decide)]
    · rw [convert_one_typed fo nm al L "esriFieldTypeInteger" "integer" h1 h2 rfl,
        if_pos (show ("integer" : String) ∈ drop_len_types by decide)]
    · rw [convert_one_typed fo nm al L "esriFieldTypeDate" "bigint" h1 h2 rfl,
        if_pos (show ("bigint" : String) ∈ drop_len_types by decide)]
    · rw [convert_one_typed fo nm al L "esriFieldTypeGUID" "uuid" h1 h2 rfl,
        if_pos (show ("uuid" : String) ∈ drop_len_types by decide)]
    · rw [convert_one_typed fo nm al L "esriFieldTypeGlobalID" "uuid" h1 h2 rfl,
        if_pos (show ("uuid" : String) ∈ drop_len_types by decide)]
  · rw [convert_one_typed fo nm al L "esriFieldTypeOID" "serial" h1 h2 rfl,
      if_neg (show ¬ ("serial" ∈ drop_len_types) by decide),
      if_neg (show ¬ ("esriFieldTypeOID" = "esriFieldTypeString") by decide)]

/-- Witness for c9_length_drop at concrete fields. -/
theorem c9_length_drop_witness :
    convert_one [] ⟨some "created", some "esriFieldTypeDate", some 8, none⟩ =
      some [⟨"created", some "bigint", none, none⟩] ∧
    convert_one [] ⟨some "created", some "esriFieldTypeOID", some 8, none⟩ =
      some [⟨"created", some "serial", some 8, none⟩] := by
  have h := c9_length_drop [] "created" none 8 "esriFieldTypeDate" "bigint" rfl
    (by decide) (by decide)
  exact h

/-- C7: the point encoder renders exactly SRID=srid;POINT(x y) for every
srid and integer coordinates, and in particular maps (10, 20) with srid
4326 to the documented text. -/
theorem c7_point_encoding :
    (∀ (sr x y : Int), change_geometry_val sr (some "POINT") (GeomVal.pt x y) =
      Except.ok (some ("SRID=" ++ toString sr ++ ";POINT(" ++ toString x ++ " " ++
        toString y ++ ")"))) ∧
    change_geometry_val 4326 (some "POINT") (GeomVal.pt 10 20) =
      Except.ok (some "SRID=4326;POINT(10 20)") := by
  constructor
  · intro sr x y
    simp [change_geometry_val]
  · rfl

/-- C5: for ring-based polygon kinds the encoder returns none both when
the ring collection is empty and when some ring has at most 3 vertices. -/
theorem c5_ring_guards (sr : Int) (g : String) (rs : List (List (Int × Int)))
    (_hg : g = "POLYGON" ∨ g = "MULTIPOLYGON")
    (h : rs = [] ∨ ∃ r ∈ rs, r.length ≤ 3) :
    change_geometry_val sr (some g) (GeomVal.rings rs) = Except.ok none := by
  rcases h with rfl | ⟨r, hr, hlen⟩
  · simp [change_geometry_val]
  · have hne : ¬ rs = [] := by
      rintro rfl
      simp at hr
    have hany : rs.any (fun r => decide (r.length ≤ 3)) = true :=
      List.any_eq_true.mpr ⟨r, hr, by simpa using hlen⟩
    simp [change_geometry_val, hne, hany]

/-- Witness for c5_ring_guards: a single 3-point ring encodes to none. -/
theorem c5_ring_guards_witness :
    change_geometry_val 4326 (some "POLYGON") (GeomVal.rings [[(0,0), (1,0), (0,1)]]) =
      Except.ok none :=
  c5_ring_guards 4326 "POLYGON" [[(0,0), (1,0), (0,1)]] (Or.inl rfl)
    (Or.inr ⟨[(0,0), (1,0), (0,1)], by simp, by decide⟩)

/-- Each convert_fields loop step either keeps the accumulator or appends
one field whose cleaned name is fresh and nonempty. -/
theorem convert_one_cases (fo : List OutField) (f : SrcField) (r : List OutField)
    (h : convert_one fo f = some r) :
    r = fo ∨ ∃ g : OutField, r = fo ++ [g] ∧ g.name ∉ fo.map OutField.name ∧ g.name ≠ "" := by
  unfold convert_one at h
  split at h
  · left
    exact (Option.some.inj h).symm
  · rename_i rawName hname
    split at h
    · left
      exact (Option.some.inj h).symm
    · rename_i hdup
      have hmem : clean_field_names rawName ∉ fo.map OutField.name := by
        intro hmem
        rcases List.mem_map.mp hmem with ⟨x, hx, hxe⟩
        exact hdup (List.any_eq_true.mpr ⟨x, hx, by simp [hxe]⟩)
      split at h
      · split at h
        · left
          exact (Option.some.inj h).symm
        · rename_i hnm
          right
          exact ⟨_, (Option.some.inj h).symm, hmem, hnm⟩
      · split at h
        · exact absurd h (by simp)
        · split at h
          · left
            exact (Option.some.inj h).symm
          · rename_i hnm
            right
            exact ⟨_, (Option.some.inj h).symm, hmem, hnm⟩

/-- The convert_fields loop preserves pairwise-distinct output names. -/
theorem convert_loop_nodup : ∀ (fs : List SrcField) (fo r : List OutField),
    convert_fields_loop fs fo = some r →
    (fo.map OutField.name).Nodup → (r.map OutField.name).Nodup := by
  intro fs
  induction fs with
  | nil =>
    intro fo r h hnd
    unfold convert_fields_loop at h
    exact (Option.some.inj h) ▸ hnd
  | cons f rest ih =>
    intro fo r h hnd
    unfold convert_fields_loop at h
    cases hc : convert_one fo f with
    | none =>
      rw [hc] at h
      exact absurd h (by simp)
    | some fo2 =>
      rw [hc] at h
      rcases convert_one_cases fo f fo2 hc with rfl | ⟨g, rfl, hmem, hne⟩
      · exact ih _ r h hnd
      · refine ih (fo ++ [g]) r h ?_
        rw [List.map_append]
        simp [List.nodup_append, hnd, hmem]

/-- C6 (amended): attribute names in the translated schema are pairwise
distinct after cleaning; the synthetic geometry column is appended last
and named shape; and the whole schema has pairwise-distinct names
whenever no attribute field cleans to the name shape. -/
theorem c6_schema_names (fs : List SrcField) (gt : String) (attrs : List OutField)
    (h : convert_fields_loop fs [] = some attrs) :
    convert_fields fs (some gt) = some (attrs ++ [shape_col gt]) ∧
    (attrs.map OutField.name).Nodup ∧
    (attrs ++ [shape_col gt]).getLast? = some (shape_col gt) ∧
    (shape_col gt).name = "shape" ∧
    ("shape" ∉ attrs.map OutField.name →
      ((attrs ++ [shape_col gt]).map OutField.name).Nodup) := by
  have hnd : (attrs.map OutField.name).Nodup :=
    convert_loop_nodup fs [] attrs h (by simp)
  refine ⟨?_, hnd, ?_, rfl, ?_⟩
  · unfold convert_fields
    rw [h]
  · rw [List.getLast?_concat]
  · intro hsh
    rw [List.map_append]
    simp [List.nodup_append, hnd, shape_col, hsh]

/-- Witness for c6_schema_names: two source fields cleaning to the same
name produce one attribute column, followed by the shape column, with
pairwise-distinct names. -/
theorem c6_schema_names_witness :
    convert_fields fs0 (some "POINT") =
      some [⟨"oid", some "serial", none, none⟩, ⟨"shape", some "POINT", none, none⟩] ∧
    (([⟨"oid", some "serial", none, none⟩, ⟨"shape", some "POINT", none, none⟩] :
      List OutField).map OutField.name).Nodup := by
  have H := c6_schema_names fs0 "POINT" [⟨"oid", some "serial", none, none⟩] rfl
  exact ⟨H.1, H.2.2.2.2 (by decide)⟩

/-- C6 counterexample: a source field named shape together with a supplied
geometry kind yields two schema fields both named shape. -/
theorem c6_counterexample :
    (convert_fields [⟨some "shape", some "esriFieldTypeString", some 10, none⟩]
      (some "POINT")).map (fun r => r.map OutField.name) = some ["shape", "shape"] ∧
    ¬ (["shape", "shape"] : List String).Nodup :=
  ⟨rfl, by decide⟩

/-- Every record yielded by the insert generator carries the empty sql
text under upsert and the INSERT template otherwise. -/
theorem insert_go_sql (jp : EsriJSON2Pg) (upsert : Bool) :
    ∀ (fs : List Feature) (rows : List InsertRow),
      insert_statements_go jp upsert fs = Except.ok rows →
      ∀ r ∈ rows, r.sql = (if upsert then "" else insert_sql jp) := by
  intro fs
  induction fs with
  | nil =>
    intro rows h r hr
    unfold insert_statements_go at h
    simp only [Except.ok.injEq] at h
    subst h
    simp at hr
  | cons feat rest ih =>
    intro rows h r hr
    unfold insert_statements_go at h
    cases hfs : feature_shape jp feat with
    | error e =>
      rw [hfs] at h
      exact absurd h (by simp)
    | ok shp =>
      rw [hfs] at h
      cases hrest : insert_statements_go jp upsert rest with
      | error e =>
        rw [hrest] at h
        exact absurd h (by simp)
      | ok rows2 =>
        rw [hrest] at h
        cases shp with
        | none =>
          simp only [Except.ok.injEq] at h
          subst h
          exact ih rows2 hrest r hr
        | some s =>
          by_cases hs : s = ""
          · simp only [hs, if_pos, Except.ok.injEq] at h
            subst h
            exact ih rows2 hrest r hr
          · simp only [hs, if_neg, Except.ok.injEq, ite_false] at h
            subst h
            rcases List.mem_cons.mp hr with rfl | hr2
            · simp [mk_row]
            · exact ih rows2 hrest r hr2

/-- C10: with upsert=True every yielded record has empty sql text, and
only upsert=False fills in the INSERT template. -/
theorem c10_upsert_empty_sql (jp : EsriJSON2Pg) :
    (∀ rows, insert_statements jp true = Except.ok rows → ∀ r ∈ rows, r.sql = "") ∧
    (∀ rows, insert_statements jp false = Except.ok rows →
      ∀ r ∈ rows, r.sql = insert_sql jp) := by
  constructor
  · intro rows h r hr
    simpa using insert_go_sql jp true jp.srcjson.features rows h r hr
  · intro rows h r hr
    simpa using insert_go_sql jp false jp.srcjson.features rows h r hr

/-- Witness for c10_upsert_empty_sql on a concrete one-feature document. -/
theorem c10_upsert_empty_sql_witness :
    (InsertRow.mk "" [("OBJECTID", PyVal.pint 1)] "SRID=4326;POINT(10 20)").sql = "" ∧
    (InsertRow.mk (insert_sql jp1) [("OBJECTID", PyVal.pint 1)]
      "SRID=4326;POINT(10 20)").sql = insert_sql jp1 := by
  constructor
  · exact (c10_upsert_empty_sql jp1).1
      [InsertRow.mk "" [("OBJECTID", PyVal.pint 1)] "SRID=4326;POINT(10 20)"] rfl _
      (by simp)
  · exact (c10_upsert_empty_sql jp1).2
      [InsertRow.mk (insert_sql jp1) [("OBJECTID", PyVal.pint 1)] "SRID=4326;POINT(10 20)"]
      rfl _ (by simp)
